import Mathlib

/-!
Shallow embedding of `src/cloud-companion/src/components/VoiceAgent.tsx`.

The component's React state hooks become fields of `ComponentState`; each
vendor-SDK event handler registered in `setupEventListeners`, and each UI
operation (`startVoiceAgent`, `stopVoiceAgent`, `handleSubmit`,
`checkMicrophonePermission`), becomes a pure transition on that state.
Calls into the vendor client (`msClientRef.current.start(...)` /
`.stop()`) are recorded explicitly as a list of `ClientCall`s, so that
"the client's start was (not) invoked" is a statement about the model.

Interactions with the browser environment are parameters: `micAvailable`
tells whether `navigator.mediaDevices.getUserMedia({audio:true})`
resolves, `startThrows` whether `msClient.start(...)` throws.
-/

namespace VoiceAgent

/-- Role of a transcript entry; the source field is named `type`, with
values the string literals 'user' and 'agent'. -/
inductive Role where
  | user
  | agent
deriving DecidableEq, Repr

/-- One entry of the `messages` state: `{type: 'user' | 'agent', text: string}`. -/
structure Message where
  role : Role
  text : String
deriving DecidableEq, Repr

/-- The React state of the `VoiceAgent` component.

* `inputText` — `useState('')`
* `isListening` — `useState(false)` (the spec's SessionState: `listening` iff true)
* `transcript` — `useState('')` (the spec's PartialTranscript)
* `messages` — `useState([])` (the spec's Message list)
* `permissionGranted` — `useState(false)` (the spec's PermissionState)
* `connectionError` — `useState<string | null>(null)` (the spec's ConnectionError)
* `clientInitialized` — whether `msClientRef.current` is non-null. -/
structure ComponentState where
  inputText : String
  isListening : Bool
  transcript : String
  messages : List Message
  permissionGranted : Bool
  connectionError : Option String
  clientInitialized : Bool
deriving DecidableEq, Repr

/-- An invocation of the vendor client. -/
inductive ClientCall where
  | start
  | stop
deriving DecidableEq, Repr

/-- The component state right after the first render: all `useState`
initializers, plus the mount effect having created the client
(`msClientRef.current := Millis.createClient(...)`). -/
def initialState : ComponentState where
  inputText := ""
  isListening := false
  transcript := ""
  messages := []
  permissionGranted := false
  connectionError := none
  clientInitialized := true

/-- `onopen` handler: `setConnectionError(null)`. -/
def onopen (s : ComponentState) : ComponentState :=
  { s with connectionError := none }

/-- `onready` handler: only `console.log`, no state change. -/
def onready (s : ComponentState) : ComponentState := s

/-- `onaudio` handler: empty body. -/
def onaudio (s : ComponentState) : ComponentState := s

/-- `useraudioready` handler: only `console.log`, no state change. -/
def useraudioready (s : ComponentState) : ComponentState := s

/-- `onresponsetext` handler:
`if (payload.is_final) setMessages(prev => [...prev, {type: 'agent', text}])`.
The optional `is_final` field is a `Bool` here (an absent field is falsy). -/
def onresponsetext (text : String) (is_final : Bool) (s : ComponentState) :
    ComponentState :=
  if is_final then
    { s with messages := s.messages ++ [{ role := Role.agent, text := text }] }
  else
    s

/-- `ontranscript` handler:
`setTranscript(text); if (payload.is_final && text) setMessages(prev => [...prev, {type: 'user', text}])`.
A JavaScript string is truthy iff non-empty, hence the `!text.isEmpty` test. -/
def ontranscript (text : String) (is_final : Bool) (s : ComponentState) :
    ComponentState :=
  let s1 := { s with transcript := text }
  if is_final && !text.isEmpty then
    { s1 with messages := s1.messages ++ [{ role := Role.user, text := text }] }
  else
    s1

/-- `onsessionended` handler: `setIsListening(false)`. -/
def onsessionended (s : ComponentState) : ComponentState :=
  { s with isListening := false }

/-- The string built by the `onclose` handler for an abnormal close:
`` `Connection closed unexpectedly (code: ${event.code}). Reason: ${event.reason || 'Unknown'}` ``.
`event.reason || 'Unknown'` falls back to `'Unknown'` exactly when
`event.reason` is the empty string. -/
def closeErrorMessage (code : Nat) (reason : String) : String :=
  "Connection closed unexpectedly (code: " ++ toString code ++ "). Reason: " ++
    (if reason.isEmpty then "Unknown" else reason)

/-- `onclose` handler: `setIsListening(false)`, and when `event.code !== 1000`
also `setConnectionError(closeErrorMessage ...)`. -/
def onclose (code : Nat) (reason : String) (s : ComponentState) : ComponentState :=
  let s1 := { s with isListening := false }
  if code ≠ 1000 then
    { s1 with connectionError := some (closeErrorMessage code reason) }
  else
    s1

/-- `onerror` handler: `setIsListening(false); setConnectionError(...)`. -/
def onerror (s : ComponentState) : ComponentState :=
  { s with
    isListening := false
    connectionError := some "An error occurred with the voice connection. Please try again." }

/-- The fixed advisory string set by `checkMicrophonePermission` on denial. -/
def micErrorMessage : String :=
  "Microphone access is required for the voice agent to work."

/-- `checkMicrophonePermission`: probes `getUserMedia({audio:true})`.
On success (`micAvailable = true`) it sets `permissionGranted` true and
releases the stream; on rejection it sets the advisory `connectionError`
and `permissionGranted := false`. -/
def checkMicrophonePermission (micAvailable : Bool) (s : ComponentState) :
    ComponentState :=
  if micAvailable then
    { s with permissionGranted := true }
  else
    { s with connectionError := some micErrorMessage, permissionGranted := false }

/-- `startVoiceAgent`. In the source, `permissionGranted` inside the handler
is the value captured when the component rendered; `await
checkMicrophonePermission()` updates the React state but not that captured
variable, so the re-check `if (!permissionGranted) return;` reads the same
stale `false` and the function always returns after the probe. Hence the
first branch performs the probe and stops, regardless of its outcome.

Returns the new state together with the client calls made. -/
def startVoiceAgent (micAvailable startThrows : Bool) (s : ComponentState) :
    ComponentState × List ClientCall :=
  if !s.permissionGranted then
    (checkMicrophonePermission micAvailable s, [])
  else if !s.clientInitialized then
    ({ s with connectionError := some "Client initialization failed. Please refresh the page." },
      [])
  else if startThrows then
    ({ s with connectionError := some "Failed to start the voice agent. Please try again." },
      [ClientCall.start])
  else
    ({ s with connectionError := none, isListening := true }, [ClientCall.start])

/-- `stopVoiceAgent`: `if (msClientRef.current) msClientRef.current.stop(); setIsListening(false);`. -/
def stopVoiceAgent (s : ComponentState) : ComponentState × List ClientCall :=
  ({ s with isListening := false },
    if s.clientInitialized then [ClientCall.stop] else [])

/-- JavaScript `String.prototype.trim`: strip leading and trailing
whitespace. -/
def jsTrim (s : String) : String :=
  String.mk (((s.data.dropWhile Char.isWhitespace).reverse.dropWhile
    Char.isWhitespace).reverse)

/-- `handleSubmit`: when `inputText.trim()` is truthy (non-empty), append a
user message carrying the un-trimmed `inputText` and clear the field; the
client is never touched. -/
def handleSubmit (s : ComponentState) : ComponentState × List ClientCall :=
  if jsTrim s.inputText ≠ "" then
    ({ s with
        messages := s.messages ++ [{ role := Role.user, text := s.inputText }]
        inputText := "" },
      [])
  else
    (s, [])

/-- The `onChange` handler of the text input: `setInputText(e.target.value)`. -/
def setInputText (text : String) (s : ComponentState) : ComponentState :=
  { s with inputText := text }

/-- The cleanup returned by the mount effect:
`if (msClientRef.current && isListening) msClientRef.current.stop();`.
`capturedIsListening` is the `isListening` value the closure holds;
`msClientRef` is a ref, so `clientInitialized` is read from the current state. -/
def effectCleanup (capturedIsListening : Bool) (s : ComponentState) :
    List ClientCall :=
  if s.clientInitialized && capturedIsListening then [ClientCall.stop] else []

/-- The client calls made when the component unmounts. The mount effect has
an empty dependency array, so it runs exactly once, after the first render;
the cleanup closure it returns therefore captured `isListening` from that
first render, where it is still the `useState(false)` initializer. -/
def unmountCalls (s : ComponentState) : List ClientCall :=
  effectCleanup initialState.isListening s

/-- A transcript event as delivered to `ontranscript`: the text plus the
`is_final` flag of the payload. -/
structure TranscriptEvent where
  text : String
  is_final : Bool
deriving DecidableEq, Repr

/-- Deliver a sequence of transcript events to the `ontranscript` handler,
in order. -/
def processTranscriptEvents (evts : List TranscriptEvent) (s : ComponentState) :
    ComponentState :=
  evts.foldl (fun st e => ontranscript e.text e.is_final st) s

/-- Every step of the component, as one type: the vendor events consumed by
`setupEventListeners` and the UI operations. -/
inductive Action where
  | evOpen
  | evReady
  | evAudio
  | evResponseText (text : String) (is_final : Bool)
  | evTranscript (text : String) (is_final : Bool)
  | evUserAudioReady
  | evSessionEnded
  | evClose (code : Nat) (reason : String)
  | evError
  | actCheckPermission (micAvailable : Bool)
  | actStart (micAvailable startThrows : Bool)
  | actStop
  | actSubmit
  | actSetInput (text : String)

/-- The state transition of one `Action`, delegating to the handler and
operation definitions above. -/
def step (a : Action) (s : ComponentState) : ComponentState :=
  match a with
  | Action.evOpen => onopen s
  | Action.evReady => onready s
  | Action.evAudio => onaudio s
  | Action.evResponseText text f => onresponsetext text f s
  | Action.evTranscript text f => ontranscript text f s
  | Action.evUserAudioReady => useraudioready s
  | Action.evSessionEnded => onsessionended s
  | Action.evClose code reason => onclose code reason s
  | Action.evError => onerror s
  | Action.actCheckPermission mic => checkMicrophonePermission mic s
  | Action.actStart mic thr => (startVoiceAgent mic thr s).1
  | Action.actStop => (stopVoiceAgent s).1
  | Action.actSubmit => (handleSubmit s).1
  | Action.actSetInput text => setInputText text s

/-- The partial transcript actually rendered: the JSX gates it with
`{transcript && isListening && ...}`. -/
def displayedTranscript (s : ComponentState) : Option String :=
  if !s.transcript.isEmpty && s.isListening then some s.transcript else none

/-! ## Helper lemmas -/

/-- Effect of one `ontranscript` delivery on the message list. -/
theorem ontranscript_messages (text : String) (f : Bool) (s : ComponentState) :
    (ontranscript text f s).messages
      = s.messages ++
        (if f && !text.isEmpty then
          [({ role := Role.user, text := text } : Message)]
        else []) := by
  simp only [ontranscript]
  split <;> simp_all

/-- The string built for an abnormal close is never empty. -/
theorem closeErrorMessage_ne_empty (code : Nat) (reason : String) :
    closeErrorMessage code reason ≠ "" := by
  intro h
  have h2 := congrArg String.length h
  have h3 : ("Connection closed unexpectedly (code: " : String).length = 38 := rfl
  have h4 : ("" : String).length = 0 := rfl
  simp only [closeErrorMessage, String.length_append, h3, h4] at h2
  omega

/-! ## Claim theorems -/

/-- C1: delivering any sequence of transcript events to the `ontranscript`
handler appends, to the message list, exactly one user `Message` per event
marked final with non-empty text, in the order the events arrived; an
event not marked final appends nothing and only overwrites the partial
transcript. -/
theorem transcript_events_append_users_in_order
    (evts : List TranscriptEvent) (s : ComponentState) :
    ((processTranscriptEvents evts s).messages
      = s.messages ++
        (evts.filter (fun e => e.is_final && !e.text.isEmpty)).map
          (fun e => { role := Role.user, text := e.text }))
    ∧ ∀ text : String,
        ontranscript text false s = { s with transcript := text } := by
  constructor
  · induction evts generalizing s with
    | nil => simp [processTranscriptEvents]
    | cons e es ih =>
        have hstep : processTranscriptEvents (e :: es) s
            = processTranscriptEvents es (ontranscript e.text e.is_final s) := rfl
        rw [hstep, ih, ontranscript_messages]
        by_cases h : (e.is_final && !e.text.isEmpty) = true <;>
          simp [h, List.filter_cons]
  · intro text
    simp [ontranscript]

/-- C2: a response-text event marked final appends exactly one agent
`Message` carrying the event's text; a non-final one changes no state. -/
theorem responsetext_final_appends_agent (text : String) (s : ComponentState) :
    onresponsetext text true s
        = { s with messages := s.messages ++ [{ role := Role.agent, text := text }] }
    ∧ onresponsetext text false s = s := by
  constructor <;> simp [onresponsetext]

/-- C3: every close event sets the session state to idle; a close with code
1000 leaves `connectionError` as it was (in particular unset when it was
unset), and any other code sets it to a non-empty string containing the
code. -/
theorem onclose_idle_and_error_message (code : Nat) (reason : String)
    (s : ComponentState) :
    (onclose code reason s).isListening = false
    ∧ (code = 1000 → (onclose code reason s).connectionError = s.connectionError)
    ∧ (code ≠ 1000 →
        ∃ msg, (onclose code reason s).connectionError = some msg
          ∧ msg ≠ ""
          ∧ ∃ p q, msg = p ++ toString code ++ q) := by
  refine ⟨?_, ?_, ?_⟩
  · simp only [onclose]
    split <;> rfl
  · intro h
    simp [onclose, h]
  · intro h
    refine ⟨closeErrorMessage code reason, ?_, closeErrorMessage_ne_empty code reason,
      "Connection closed unexpectedly (code: ",
      "). Reason: " ++ (if reason.isEmpty then "Unknown" else reason), ?_⟩
    · simp [onclose, h]
    · simp [closeErrorMessage, String.append_assoc]

/-- C3 witness: at code 1000 the error is untouched; at code 1006 it is a
non-empty string containing the code. -/
theorem onclose_idle_and_error_message_witness :
    ((onclose 1000 "" initialState).connectionError = initialState.connectionError)
    ∧ ∃ msg, (onclose 1006 "going away" initialState).connectionError = some msg
        ∧ msg ≠ "" ∧ ∃ p q, msg = p ++ toString 1006 ++ q :=
  ⟨(onclose_idle_and_error_message 1000 "" initialState).2.1 rfl,
   (onclose_idle_and_error_message 1006 "going away" initialState).2.2 (by decide)⟩

/-- C4: when the permission state is not granted and the microphone probe
is denied, `startVoiceAgent` makes no client call and leaves
`connectionError` set to the fixed advisory string. -/
theorem start_denied_no_client_call (startThrows : Bool) (s : ComponentState)
    (hp : s.permissionGranted = false) :
    (startVoiceAgent false startThrows s).2 = []
    ∧ (startVoiceAgent false startThrows s).1.connectionError
        = some micErrorMessage := by
  simp [startVoiceAgent, hp, checkMicrophonePermission]

/-- C4 witness: the denied-permission start at the initial state. -/
theorem start_denied_no_client_call_witness :
    initialState.permissionGranted = false
    ∧ ((startVoiceAgent false false initialState).2 = []
        ∧ (startVoiceAgent false false initialState).1.connectionError
            = some micErrorMessage) :=
  ⟨rfl, start_denied_no_client_call false initialState rfl⟩

/-- C5: `stopVoiceAgent` sets the session state to idle after any start, on
any state at all (so also with no active session), and a second consecutive
stop leaves the state exactly as after the first. As a total Lean function
it cannot fail, mirroring that the handler body throws nothing. -/
theorem stop_idle_and_idempotent (micAvailable startThrows : Bool)
    (s : ComponentState) :
    (stopVoiceAgent (startVoiceAgent micAvailable startThrows s).1).1.isListening
        = false
    ∧ (∀ t : ComponentState, (stopVoiceAgent t).1.isListening = false)
    ∧ (∀ t : ComponentState,
        (stopVoiceAgent (stopVoiceAgent t).1).1 = (stopVoiceAgent t).1) := by
  refine ⟨rfl, fun t => rfl, fun t => rfl⟩

/-- Every step leaves the message list as the old list plus some suffix. -/
theorem step_messages_extends (a : Action) (s : ComponentState) :
    ∃ t, (step a s).messages = s.messages ++ t := by
  cases a <;>
    simp only [step, onopen, onready, onaudio, useraudioready, onresponsetext,
      ontranscript, onsessionended, onclose, onerror, checkMicrophonePermission,
      startVoiceAgent, stopVoiceAgent, handleSubmit, setInputText]
  all_goals repeat' split
  all_goals
    first
      | exact ⟨[], (List.append_nil _).symm⟩
      | exact ⟨_, rfl⟩

/-- C6: every event handler and UI operation of the component only appends
to the message list: after any step, the previous message list is a prefix
of the new one. -/
theorem messages_append_only (a : Action) (s : ComponentState) :
    s.messages <+: (step a s).messages := by
  obtain ⟨t, ht⟩ := step_messages_extends a s
  rw [ht]
  exact List.prefix_append _ _

/-- C7: the claim fails on the code. The mount effect has an empty
dependency array, so its cleanup closure holds the `isListening` of the
first render, which is `false`; at unmount with an active session
(`isListening = true`) the cleanup therefore makes no client call at all,
and in particular does not invoke the client's stop. -/
theorem unmount_skips_stop_of_active_session :
    ({ initialState with isListening := true } : ComponentState).isListening = true
    ∧ unmountCalls { initialState with isListening := true } = [] :=
  ⟨rfl, rfl⟩

/-- C8 counterexample: stopping with a pending partial transcript leaves
the transcript string non-empty. -/
theorem stop_leaves_transcript_cex :
    (stopVoiceAgent
        { initialState with transcript := "hello", isListening := true }).1.transcript
      ≠ "" := by decide

/-- C8 amended: `stopVoiceAgent` does not modify the partial transcript
string at all; the partial transcript merely stops being rendered, because
the view shows it only while the session state is listening. -/
theorem stop_preserves_transcript_and_hides_it (s : ComponentState) :
    (stopVoiceAgent s).1.transcript = s.transcript
    ∧ displayedTranscript (stopVoiceAgent s).1 = none := by
  refine ⟨rfl, ?_⟩
  simp [displayedTranscript, stopVoiceAgent]

/-- C9: submitting an input whose trimmed form is non-empty appends exactly
one user message carrying the (un-trimmed) input and clears the field,
while making no client call ever; an input whose trimmed form is empty
changes nothing. -/
theorem handleSubmit_local_echo (s : ComponentState) :
    (handleSubmit s).2 = []
    ∧ (jsTrim s.inputText ≠ "" →
        (handleSubmit s).1.messages
            = s.messages ++ [{ role := Role.user, text := s.inputText }]
          ∧ (handleSubmit s).1.inputText = "")
    ∧ (jsTrim s.inputText = "" → (handleSubmit s).1 = s) := by
  by_cases h : jsTrim s.inputText = "" <;> simp [handleSubmit, h]

/-- C9 witness: submitting the input " hi ". -/
theorem handleSubmit_local_echo_witness :
    jsTrim (" hi " : String) ≠ ""
    ∧ ((handleSubmit { initialState with inputText := " hi " }).1.messages
          = ({ initialState with inputText := " hi " } : ComponentState).messages
            ++ [{ role := Role.user, text := " hi " }]
        ∧ (handleSubmit { initialState with inputText := " hi " }).1.inputText
            = "") :=
  ⟨by decide,
   (handleSubmit_local_echo { initialState with inputText := " hi " }).2.1
     (by decide)⟩

/-- C10: a `startVoiceAgent` invocation made while permission is not
granted makes no client call and leaves the listening flag unchanged, even
when the in-call probe succeeds and grants permission; only a subsequent
invocation (here with the client initialized) issues the client start. -/
theorem start_without_grant_never_starts (micAvailable startThrows : Bool)
    (s : ComponentState) (hp : s.permissionGranted = false) :
    (startVoiceAgent micAvailable startThrows s).2 = []
    ∧ (startVoiceAgent micAvailable startThrows s).1.isListening = s.isListening
    ∧ (micAvailable = true →
        (startVoiceAgent micAvailable startThrows s).1.permissionGranted = true
        ∧ (s.clientInitialized = true →
            (startVoiceAgent true false
                (startVoiceAgent micAvailable startThrows s).1).2
              = [ClientCall.start])) := by
  cases micAvailable with
  | false => simp [startVoiceAgent, hp, checkMicrophonePermission]
  | true =>
      refine ⟨by simp [startVoiceAgent, hp, checkMicrophonePermission],
        by simp [startVoiceAgent, hp, checkMicrophonePermission],
        fun _ => ⟨by simp [startVoiceAgent, hp, checkMicrophonePermission],
          fun hc => by
            simp [startVoiceAgent, hp, checkMicrophonePermission, hc]⟩⟩

/-- C10 witness: from the initial state (permission not yet granted), a
start with a successful probe makes no client call, and the next start
does. -/
theorem start_without_grant_never_starts_witness :
    initialState.permissionGranted = false
    ∧ (startVoiceAgent true false initialState).2 = []
    ∧ (startVoiceAgent true false initialState).1.isListening
        = initialState.isListening
    ∧ (startVoiceAgent true false (startVoiceAgent true false initialState).1).2
        = [ClientCall.start] := by
  have h := start_without_grant_never_starts true false initialState rfl
  exact ⟨rfl, h.1, h.2.1, (h.2.2 rfl).2 rfl⟩

end VoiceAgent
